import Mathlib

/-!
Shallow embedding of the two controllers of `src/script.js`:

* the aspect-ratio driven background-video crossfade controller
  (`chooseVariant`, `playSafely`, `onSmartResize` and its inner
  closure `startNew`), and
* the direction-aware section scroll-snap controller
  (`centerSectionIndex`, `scrollToY`, `snapToNextTop`,
  `snapToPrevBottom`, `onScroll` and the debounce timer).

Modelling conventions:

* JS numbers used in transcendental position (`Math.log` in
  `chooseVariant`) are modelled as real numbers `ℝ` with Mathlib's
  total `Real.log`; all other numeric quantities (playback times,
  durations in seconds, pixel offsets, scroll positions) are exact
  rationals `ℚ` or integers `ℤ` (DOM `offsetTop`/`offsetHeight` are
  integer-valued), so the state machines stay executable.
* Fallible browser operations are modelled with an explicit failure
  flag: `seekOp` (assigning `video.currentTime`, which may throw
  before metadata) and `playOp` (`video.play()`, whose returned
  promise may reject when autoplay is blocked) return `Except`, and
  the source's `try/catch` / `p.catch(() => {})` handlers are the
  `match`es that swallow the error.
* `setTimeout(() => prev.pause(), ...)` is modelled by appending the
  paused-to-be surface to a `scheduledPauses` log; `current.load()`
  by a `loadCalls` counter; the once-only `loadedmetadata` listener
  holding the `startNew` closure by the `pendingStarts` list of the
  surface it is attached to (the closure captures `t`, `prev` and
  `current`).
* In the snap controller, the single `setTimeout` slot `snapTimer`
  is an `Option PendingSnap`; the source keeps the expired timer id
  after the callback has fired, but an expired id is behaviourally
  inert (clearing it is a no-op and it can never fire again), so the
  model sets the slot to `none` when the timer fires.  Issued
  `window.scrollTo` commands are recorded in the `committed` log.
  `getBoundingClientRect().top` of a statically laid out section is
  its document offset minus the current scroll position (`rectOf`).
-/

namespace Portfolio

/-- The two media variants, the strings `"landscape"` / `"portrait"` in the source. -/
inductive Variant
  | landscape
  | portrait
deriving DecidableEq

/-- The other variant (used to state the inversion symmetry of the selector). -/
def Variant.flip : Variant → Variant
  | .landscape => .portrait
  | .portrait => .landscape

/-- `CROSSFADE_MS = 300` from the source config. -/
def CROSSFADE_MS : ℕ := 300

/-- `SWAP_DEBOUNCE = 180` from the source config. -/
def SWAP_DEBOUNCE : ℕ := 180

/-- The landscape reference ratio `R_L = 16 / 9` of `chooseVariant`. -/
noncomputable def R_L : ℝ := 16 / 9

/-- The portrait reference ratio `R_P = 9 / 16` of `chooseVariant`. -/
noncomputable def R_P : ℝ := 9 / 16

/-- The logarithmic distance `Math.abs(Math.log(r / x))` used by `chooseVariant`. -/
noncomputable def logDist (r x : ℝ) : ℝ := |Real.log (r / x)|

/-- `chooseVariant(w, h)` from the source: compare the log distances of
`r = w / h` to the two reference ratios; ties (`dL <= dP`) go to landscape. -/
noncomputable def chooseVariant (w h : ℝ) : Variant :=
  if logDist (w / h) R_L ≤ logDist (w / h) R_P then .landscape else .portrait

/-- One `<video>` element: playback position, duration (`none` while the
duration is still `NaN`, i.e. not a finite number, before metadata),
opacity, paused flag, `readyState`, and the `loadedmetadata` once-listeners
attached to it (each holding the captured `(t, prev)` of a deferred
`startNew` closure). -/
structure Surface where
  currentTime : ℚ
  duration : Option ℚ
  opacity : ℚ
  paused : Bool
  readyState : ℕ
  pendingStarts : List (ℚ × Variant)
deriving DecidableEq

/-- State of the crossfade controller: the two video elements, the active
variant (`current` is the surface of `variant`, `other` the one of
`variant.flip`), the log of `setTimeout(() => prev.pause(), ...)` calls and
the number of `current.load()` calls. -/
structure MediaState where
  vidL : Surface
  vidP : Surface
  variant : Variant
  scheduledPauses : List Variant
  loadCalls : ℕ
deriving DecidableEq

/-- The video element associated to a variant. -/
def getSurf (st : MediaState) : Variant → Surface
  | .landscape => st.vidL
  | .portrait => st.vidP

/-- Replace the video element associated to a variant. -/
def setSurf (st : MediaState) (v : Variant) (s : Surface) : MediaState :=
  match v with
  | .landscape => { st with vidL := s }
  | .portrait => { st with vidP := s }

/-- `x || 0` of the source line `const t = prev.currentTime || 0`: on an
exact rational playback position the only falsy value is `0` itself. -/
def orZero (x : ℚ) : ℚ := if x = 0 then 0 else x

/-- The seek target of `startNew`:
`Math.min(t, Number.isFinite(current.duration) ? Math.max(current.duration - 0.05, 0) : t)`. -/
def targetTime (t : ℚ) (duration : Option ℚ) : ℚ :=
  min t
    (match duration with
      | some d => max (d - 1/20) 0
      | none => t)

/-- Assigning `video.currentTime = t`: throws on some engines before
metadata is ready; the `fails` flag selects that outcome. -/
def seekOp (fails : Bool) (s : Surface) (t : ℚ) : Except Unit Surface :=
  if fails then .error () else .ok { s with currentTime := t }

/-- `video.play()`: may fail (blocked autoplay), reported synchronously or
as a rejected promise; both are the `fails` outcome here. -/
def playOp (fails : Bool) (s : Surface) : Except Unit Surface :=
  if fails then .error () else .ok { s with paused := false }

/-- `playSafely(video)` from the source: call `play` and swallow a
rejection with `p.catch(() => {})`, leaving the element untouched. -/
def playSafely (fails : Bool) (s : Surface) : Surface :=
  match playOp fails s with
  | .ok s1 => s1
  | .error _ => s

/-- `setOpacity(el, value)` from the source applied to the surface of a variant. -/
def setOpacity (st : MediaState) (v : Variant) (value : ℚ) : MediaState :=
  setSurf st v { getSurf st v with opacity := value }

/-- The `startNew` closure of `onSmartResize`, with its captured values
`t` (outgoing position), `prev` (= `prevV`) and `current` (= `curV`):
try to seek to the clamped target (`catch` ignores a failure), crossfade
the opacities, schedule the pause of the outgoing surface, and
`playSafely` the incoming one. -/
def startNew (seekFails playFails : Bool) (t : ℚ) (prevV curV : Variant)
    (st : MediaState) : MediaState :=
  let cur := getSurf st curV
  let tgt := targetTime t cur.duration
  let st1 :=
    match seekOp seekFails cur tgt with
    | .ok s => setSurf st curV s
    | .error _ => st
  let st2 := setOpacity st1 prevV 0
  let st3 := setOpacity st2 curV 1
  let st4 := { st3 with scheduledPauses := st3.scheduledPauses ++ [prevV] }
  setSurf st4 curV (playSafely playFails (getSurf st4 curV))

/-- `onSmartResize` from the source, reading viewport `w × h`: recompute
the variant; if unchanged return immediately; otherwise swap the roles,
capture `t = prev.currentTime || 0`, and either run `startNew` now
(`readyState >= 1`) or attach it as a `loadedmetadata` once-listener and
call `current.load()`. -/
noncomputable def onSmartResize (w h : ℝ) (seekFails playFails : Bool)
    (st : MediaState) : MediaState :=
  let newVariant := chooseVariant w h
  if newVariant = st.variant then st
  else
    let prevV := st.variant
    let st1 := { st with variant := newVariant }
    let t := orZero (getSurf st prevV).currentTime
    if 1 ≤ (getSurf st1 newVariant).readyState then
      startNew seekFails playFails t prevV newVariant st1
    else
      let cur := getSurf st1 newVariant
      let st2 := setSurf st1 newVariant
        { cur with pendingStarts := cur.pendingStarts ++ [(t, prevV)] }
      { st2 with loadCalls := st2.loadCalls + 1 }

/-- The `loadedmetadata` event on the surface of `v` carrying duration `d`:
the element now has metadata, and every once-listener attached to it fires
(and is removed) in attachment order. -/
def onLoadedMetadata (seekFails playFails : Bool) (v : Variant) (d : ℚ)
    (st : MediaState) : MediaState :=
  let s0 := getSurf st v
  let ps := s0.pendingStarts
  let st1 := setSurf st v { s0 with duration := some d, readyState := 1, pendingStarts := [] }
  ps.foldl (fun acc tp => startNew seekFails playFails tp.1 tp.2 v acc) st1

/-- `OVERLAP_FRAC = 0.05` from the snap controller config. -/
def OVERLAP_FRAC : ℚ := 5 / 100

/-- `SNAP_DELAY_MS = 120` from the snap controller config. -/
def SNAP_DELAY_MS : ℕ := 120

/-- `SETTLE_FRAMES = 6` from the snap controller config. -/
def SETTLE_FRAMES : ℕ := 6

/-- `NEAR_EPS_PX = 2` from the snap controller config. -/
def NEAR_EPS_PX : ℕ := 2

/-- A `getBoundingClientRect()` result restricted to what the controller
reads: `top` and `bottom`, in viewport coordinates. -/
structure Rect where
  top : ℚ
  bottom : ℚ
deriving DecidableEq

/-- A page `<section>`: its document offsets `offsetTop` / `offsetHeight`
(integer-valued DOM properties). -/
structure PageSection where
  offsetTop : ℤ
  offsetHeight : ℤ
deriving DecidableEq

/-- The fixed environment of the snap controller: the section list captured
once at startup and the viewport height `vh()`. -/
structure Env where
  sections : List PageSection
  vh : ℚ
deriving DecidableEq

/-- The viewport rectangle of a section when the page is scrolled to `y`. -/
def rectOf (y : ℚ) (s : PageSection) : Rect :=
  { top := (s.offsetTop : ℚ) - y
    bottom := (s.offsetTop : ℚ) - y + (s.offsetHeight : ℚ) }

/-- Scroll direction. -/
inductive Dir
  | up
  | down
deriving DecidableEq

/-- A scheduled (debounced, not yet fired) snap: the closure
`() => snapToNextTop(sections[i + 1])` or `() => snapToPrevBottom(sections[i - 1])`. -/
inductive PendingSnap
  | toNextTop (idx : ℕ)
  | toPrevBottom (idx : ℕ)
deriving DecidableEq

/-- The direction under which a pending snap kind is scheduled:
`toNextTop` only ever in the `down` branch, `toPrevBottom` only in `up`. -/
def pendingDir : PendingSnap → Dir
  | .toNextTop _ => .down
  | .toPrevBottom _ => .up

/-- Mutable state of the snap controller, plus the `committed` log of
target offsets passed to `window.scrollTo`. -/
structure SnapState where
  lastY : ℚ
  direction : Dir
  animating : Bool
  snapTimer : Option PendingSnap
  targetY : Option ℤ
  committed : List ℤ
deriving DecidableEq

/-- The containment test `r.top <= mid && r.bottom >= mid` of
`centerSectionIndex`. -/
def containsMid (mid : ℚ) (r : Rect) : Prop := r.top ≤ mid ∧ mid ≤ r.bottom

instance (mid : ℚ) (r : Rect) : Decidable (containsMid mid r) :=
  inferInstanceAs (Decidable (r.top ≤ mid ∧ mid ≤ r.bottom))

/-- The loop of `centerSectionIndex`: `i` is the current loop index, `idx`
the accumulator variable (initially `0`, overwritten without `break` by the
`i === rects.length - 1` branch, returned when the loop drops out).
`max 0 (i - 1)` mirrors `Math.max(0, i - 1)` (truncated subtraction on `ℕ`
already clamps at `0` exactly like the JS expression). -/
def centerLoop (mid : ℚ) : ℕ → ℕ → List Rect → ℕ
  | _, idx, [] => idx
  | i, idx, r :: rest =>
    if r.top ≤ mid ∧ mid ≤ r.bottom then i
    else if mid < r.top then max 0 (i - 1)
    else centerLoop mid (i + 1) (if rest.isEmpty then i else idx) rest

/-- `centerSectionIndex(rects)` from the source: `mid = vh() / 2`, then the
first-containing / first-top-exceeds / last-element loop. -/
def centerSectionIndex (vh : ℚ) (rects : List Rect) : ℕ :=
  centerLoop (vh / 2) 0 0 rects

/-- `scrollToY(y)`: set `animating`, commit the rounded, non-negatively
clamped target and issue the smooth scroll (recorded in `committed`). -/
def scrollToY (y : ℚ) (st : SnapState) : SnapState :=
  let t := round (max 0 y)
  { st with animating := true, targetY := some t, committed := st.committed ++ [t] }

/-- `snapToNextTop(nextEl)`: align the next section's top with the viewport top. -/
def snapToNextTop (next : PageSection) (st : SnapState) : SnapState :=
  scrollToY (next.offsetTop : ℚ) st

/-- `snapToPrevBottom(prevEl)`: bottom-align the previous section, clamped
to its own top when it is shorter than the viewport. -/
def snapToPrevBottom (vh : ℚ) (prev : PageSection) (st : SnapState) : SnapState :=
  let desired := (prev.offsetTop : ℚ) + (prev.offsetHeight : ℚ) - vh
  scrollToY (max (prev.offsetTop : ℚ) desired) st

/-- `scheduleSnap(fn)`: clear any previously pending timer and start a new
120 ms one — a single-slot replace. -/
def scheduleSnap (p : PendingSnap) (st : SnapState) : SnapState :=
  { st with snapTimer := some p }

/-- The instantaneous direction computed at the top of `onScroll`. -/
def newDirOf (y : ℚ) (st : SnapState) : Dir :=
  if st.lastY < y then .down else if y < st.lastY then .up else st.direction

/-- `onScroll` from the source, at scroll position `y`: update direction
(cancelling a pending snap on a flip), update `lastY`, bail out while
animating, then possibly schedule a snap towards the exposed neighbour. -/
def onScroll (env : Env) (y : ℚ) (st : SnapState) : SnapState :=
  let newDir := newDirOf y st
  let st1 :=
    if newDir ≠ st.direction ∧ st.snapTimer ≠ none then { st with snapTimer := none } else st
  let st2 := { st1 with direction := newDir, lastY := y }
  if st2.animating then st2
  else
    let rects := env.sections.map (rectOf y)
    let i := centerSectionIndex env.vh rects
    let threshold : ℚ := ((max 8 ⌊env.vh * OVERLAP_FRAC⌋ : ℤ) : ℚ)
    if newDir = .down ∧ i < env.sections.length - 1 then
      let nextTop := (rects.getD (i + 1) ⟨0, 0⟩).top
      let nextVisible := max 0 (env.vh - max 0 nextTop)
      if threshold ≤ nextVisible then scheduleSnap (.toNextTop (i + 1)) st2 else st2
    else if newDir = .up ∧ 0 < i then
      let prevBottom := (rects.getD (i - 1) ⟨0, 0⟩).bottom
      let prevVisible := max 0 (min prevBottom env.vh)
      if threshold ≤ prevVisible then scheduleSnap (.toPrevBottom (i - 1)) st2 else st2
    else st2

/-- The debounced timer firing: run the scheduled closure (the expired
timer id left in the source is behaviourally `none`, see the header note). -/
def fireTimer (env : Env) (st : SnapState) : SnapState :=
  match st.snapTimer with
  | none => st
  | some (.toNextTop j) =>
      snapToNextTop (env.sections.getD j ⟨0, 0⟩) { st with snapTimer := none }
  | some (.toPrevBottom j) =>
      snapToPrevBottom env.vh (env.sections.getD j ⟨0, 0⟩) { st with snapTimer := none }

/-- The terminal tick of `watchSettle`: the smooth scroll has settled. -/
def settleDone (st : SnapState) : SnapState :=
  { st with animating := false, targetY := none }

/-- The discrete signals driving the snap controller. -/
inductive SnapEvent
  | scroll (y : ℚ)
  | resize (y : ℚ)
  | timer
  | settle
deriving DecidableEq

/-- One controller step per signal; the `resize` listener is
`if (!animating) onScroll()`. -/
def snapStep (env : Env) : SnapEvent → SnapState → SnapState
  | .scroll y, st => onScroll env y st
  | .resize y, st => if st.animating then st else onScroll env y st
  | .timer, st => fireTimer env st
  | .settle, st => settleDone st

/-- Concrete media state for the C1 counterexample: the portrait surface is
current at position `0`; the landscape surface has metadata (`readyState 1`)
with the degenerate duration `1/100 s < 0.05 s`. -/
def stC1x : MediaState :=
  { vidL := { currentTime := 0, duration := some (1/100), opacity := 0, paused := true,
              readyState := 1, pendingStarts := [] }
    vidP := { currentTime := 0, duration := some 2, opacity := 1, paused := false,
              readyState := 1, pendingStarts := [] }
    variant := .portrait
    scheduledPauses := []
    loadCalls := 0 }

/-- Concrete media state for the C1 witness: portrait current at position
`3`, landscape ready with duration `10`. -/
def stC1w : MediaState :=
  { vidL := { currentTime := 0, duration := some 10, opacity := 0, paused := true,
              readyState := 1, pendingStarts := [] }
    vidP := { currentTime := 3, duration := some 20, opacity := 1, paused := false,
              readyState := 1, pendingStarts := [] }
    variant := .portrait
    scheduledPauses := []
    loadCalls := 0 }

/-- Concrete media state for the C6 witness. -/
def stC6 : MediaState :=
  { vidL := { currentTime := 7, duration := none, opacity := 0, paused := true,
              readyState := 0, pendingStarts := [] }
    vidP := { currentTime := 5, duration := some 9, opacity := 1, paused := false,
              readyState := 1, pendingStarts := [] }
    variant := .landscape
    scheduledPauses := []
    loadCalls := 0 }

/-- Concrete snap environment (three sections of heights 800/1200/600,
viewport 800) shared by the snap witnesses. -/
def envSnap : Env :=
  { sections := [⟨0, 800⟩, ⟨800, 1200⟩, ⟨2000, 600⟩], vh := 800 }

/-- Concrete snap state for the C2 witness: an animation is in flight. -/
def stC2 : SnapState :=
  { lastY := 100, direction := .down, animating := true, snapTimer := none,
    targetY := some 800, committed := [800] }

/-- Concrete snap state for the C7 witness: a snap towards the next section
is pending while the user was scrolling down. -/
def stC7 : SnapState :=
  { lastY := 100, direction := .down, animating := false,
    snapTimer := some (.toNextTop 1), targetY := none, committed := [] }

/-- Concrete snap state for the C10 witness. -/
def stC10 : SnapState :=
  { lastY := 900, direction := .up, animating := false, snapTimer := none,
    targetY := none, committed := [] }

/-! Helper lemmas about the aspect selector at concrete ratios. -/

lemma logDist_RL_self : logDist ((16 : ℝ) / 9) R_L = 0 := by
  have h : ((16 : ℝ) / 9) / R_L = 1 := by unfold R_L; norm_num
  unfold logDist
  rw [h, Real.log_one, abs_zero]

lemma logDist_16_9_RP_pos : 0 < logDist ((16 : ℝ) / 9) R_P := by
  have h : ((16 : ℝ) / 9) / R_P = 256 / 81 := by unfold R_P; norm_num
  unfold logDist
  rw [h]
  exact abs_pos.mpr (by norm_num [Real.log_eq_zero])

lemma logDist_9_16_RP_self : logDist ((9 : ℝ) / 16) R_P = 0 := by
  have h : ((9 : ℝ) / 16) / R_P = 1 := by unfold R_P; norm_num
  unfold logDist
  rw [h, Real.log_one, abs_zero]

lemma logDist_9_16_RL_pos : 0 < logDist ((9 : ℝ) / 16) R_L := by
  have h : ((9 : ℝ) / 16) / R_L = 81 / 256 := by unfold R_L; norm_num
  unfold logDist
  rw [h]
  exact abs_pos.mpr (by norm_num [Real.log_eq_zero])

lemma chooseVariant_16_9 : chooseVariant 16 9 = .landscape := by
  unfold chooseVariant
  rw [if_pos (by rw [logDist_RL_self]; exact logDist_16_9_RP_pos.le)]

lemma chooseVariant_9_16 : chooseVariant 9 16 = .portrait := by
  unfold chooseVariant
  rw [if_neg (by rw [logDist_9_16_RP_self]; exact not_le.mpr logDist_9_16_RL_pos)]

lemma chooseVariant_neg9_16 : chooseVariant (-9) 16 = .portrait := by
  have hL : 0 < logDist ((-9 : ℝ) / 16) R_L := by
    have h : ((-9 : ℝ) / 16) / R_L = -(81 / 256) := by unfold R_L; norm_num
    unfold logDist
    rw [h, Real.log_neg_eq_log]
    exact abs_pos.mpr (by norm_num [Real.log_eq_zero])
  have hP : logDist ((-9 : ℝ) / 16) R_P = 0 := by
    have h : ((-9 : ℝ) / 16) / R_P = -1 := by unfold R_P; norm_num
    unfold logDist
    rw [h, Real.log_neg_eq_log, Real.log_one, abs_zero]
  unfold chooseVariant
  rw [if_neg (by rw [hP]; exact not_le.mpr hL)]

lemma logDist_inv_RL (r : ℝ) : logDist r⁻¹ R_L = logDist r R_P := by
  have h : r⁻¹ / R_L = (r / R_P)⁻¹ := by
    unfold R_L R_P
    rw [div_eq_mul_inv, div_eq_mul_inv, mul_inv, inv_inv]
    norm_num
    ring
  unfold logDist
  rw [h, Real.log_inv, abs_neg]

lemma logDist_inv_RP (r : ℝ) : logDist r⁻¹ R_P = logDist r R_L := by
  have h : r⁻¹ / R_P = (r / R_L)⁻¹ := by
    unfold R_L R_P
    rw [div_eq_mul_inv, div_eq_mul_inv, mul_inv, inv_inv]
    norm_num
    ring
  unfold logDist
  rw [h, Real.log_inv, abs_neg]

/-- C4: for every positive width and height, `chooseVariant` computes
`r = w / h` and the log distances to `16/9` and `9/16`, returning
`landscape` exactly when `|ln(r / (16/9))| ≤ |ln(r / (9/16))|` (ties to
landscape), else `portrait`; in particular at `w / h = 16/9` it returns
`landscape` and at `w / h = 9/16` it returns `portrait`. -/
theorem chooseVariant_log_distance_spec (w h : ℝ) (hw : 0 < w) (hh : 0 < h) :
    (chooseVariant w h = .landscape ↔ logDist (w / h) R_L ≤ logDist (w / h) R_P)
    ∧ (w / h = 16 / 9 → chooseVariant w h = .landscape)
    ∧ (w / h = 9 / 16 → chooseVariant w h = .portrait) := by
  refine ⟨?_, ?_, ?_⟩
  · by_cases hc : logDist (w / h) R_L ≤ logDist (w / h) R_P
    · simp [chooseVariant, hc]
    · simp [chooseVariant, hc]
  · intro hr
    unfold chooseVariant
    rw [hr, if_pos (by rw [logDist_RL_self]; exact logDist_16_9_RP_pos.le)]
  · intro hr
    unfold chooseVariant
    rw [hr, if_neg (by rw [logDist_9_16_RP_self]; exact not_le.mpr logDist_9_16_RL_pos)]

/-- C4 witness: the selector evaluated at the two reference viewports. -/
theorem chooseVariant_log_distance_spec_witness :
    chooseVariant 16 9 = .landscape ∧ chooseVariant 9 16 = .portrait :=
  ⟨(chooseVariant_log_distance_spec 16 9 (by norm_num) (by norm_num)).2.1 (by norm_num),
   (chooseVariant_log_distance_spec 9 16 (by norm_num) (by norm_num)).2.2 (by norm_num)⟩

/-- C9: swapping the arguments of the selector inverts the ratio, and the
inverse ratio is equidistant from the two references with the roles of the
references swapped; consequently when the two distances are unequal the
swapped call returns the opposite variant. -/
theorem chooseVariant_inversion_symmetry (w h : ℝ) (hw : 0 < w) (hh : 0 < h) :
    (logDist (h / w) R_L = logDist (w / h) R_P
      ∧ logDist (h / w) R_P = logDist (w / h) R_L)
    ∧ (logDist (w / h) R_L ≠ logDist (w / h) R_P →
        chooseVariant h w = (chooseVariant w h).flip) := by
  have hinv : h / w = (w / h)⁻¹ := (inv_div w h).symm
  refine ⟨⟨?_, ?_⟩, ?_⟩
  · rw [hinv, logDist_inv_RL]
  · rw [hinv, logDist_inv_RP]
  · intro hne
    unfold chooseVariant
    rw [hinv, logDist_inv_RL, logDist_inv_RP]
    by_cases hc : logDist (w / h) R_L ≤ logDist (w / h) R_P
    · rw [if_pos hc, if_neg (fun hle => hne (le_antisymm hc hle))]
      rfl
    · rw [if_neg hc, if_pos (le_of_not_le hc)]
      rfl

/-- C9 witness: at the landscape reference viewport the distances differ,
and swapping width and height flips the decision. -/
theorem chooseVariant_inversion_symmetry_witness :
    chooseVariant 9 16 = (chooseVariant 16 9).flip := by
  refine (chooseVariant_inversion_symmetry 16 9 (by norm_num) (by norm_num)).2 ?_
  rw [logDist_RL_self]
  exact ne_of_lt logDist_16_9_RP_pos

/-- C3 counterexample: at the degenerate input `w = -9, h = 16` (negative
width) the selector returns `portrait`, not an error and not the
`landscape` default, contradicting the claim that degenerate input never
yields `portrait`.  (The JS code agrees: `Math.log` of a negative ratio is
`NaN` and `NaN <= NaN` is false, selecting `"portrait"`.) -/
theorem chooseVariant_degenerate_counterexample :
    ((-9 : ℝ) < 0) ∧ chooseVariant (-9) 16 = .portrait :=
  ⟨by norm_num, chooseVariant_neg9_16⟩

/-- C3 (amended): the selector is pure and total and never throws for
positive width and height; it does not guard degenerate input: for zero
width it returns `landscape`, but for negative input it can return
`portrait` (e.g. at `(-9, 16)`). -/
theorem chooseVariant_total_default :
    (∀ w h : ℝ, 0 < w → 0 < h →
        chooseVariant w h = .landscape ∨ chooseVariant w h = .portrait)
    ∧ (∀ h : ℝ, 0 < h → chooseVariant 0 h = .landscape)
    ∧ chooseVariant (-9) 16 = .portrait := by
  refine ⟨?_, ?_, chooseVariant_neg9_16⟩
  · intro w h _ _
    unfold chooseVariant
    split
    · exact Or.inl rfl
    · exact Or.inr rfl
  · intro h _
    have h0 : (0 : ℝ) / h = 0 := zero_div h
    unfold chooseVariant
    rw [h0]
    unfold logDist
    rw [zero_div, zero_div, if_pos (le_refl _)]

/-- C3 witness: totality at a positive viewport and the zero-width default. -/
theorem chooseVariant_total_default_witness :
    (chooseVariant 16 9 = .landscape ∨ chooseVariant 16 9 = .portrait)
    ∧ chooseVariant 0 16 = .landscape :=
  ⟨chooseVariant_total_default.1 16 9 (by norm_num) (by norm_num),
   chooseVariant_total_default.2.1 16 (by norm_num)⟩

/-! Helper lemmas about the crossfade state machine. -/

lemma getSurf_setSurf_self (st : MediaState) (v : Variant) (s : Surface) :
    getSurf (setSurf st v s) v = s := by
  cases v <;> rfl

lemma getSurf_setSurf_ne (st : MediaState) {v v2 : Variant} (s : Surface) (h : v ≠ v2) :
    getSurf (setSurf st v s) v2 = getSurf st v2 := by
  cases v <;> cases v2 <;> first | rfl | exact absurd rfl h

lemma variant_setSurf (st : MediaState) (v : Variant) (s : Surface) :
    (setSurf st v s).variant = st.variant := by
  cases v <;> rfl

lemma variant_startNew (sf pf : Bool) (t : ℚ) (pv cv : Variant) (st : MediaState) :
    (startNew sf pf t pv cv st).variant = st.variant := by
  cases pv <;> cases cv <;> cases sf <;> cases pf <;>
    simp [startNew, setOpacity, setSurf, getSurf, seekOp, playOp, playSafely]

lemma variant_onSmartResize (w h : ℝ) (sf pf : Bool) (st : MediaState) :
    (onSmartResize w h sf pf st).variant = chooseVariant w h := by
  simp only [onSmartResize]
  by_cases hv : chooseVariant w h = st.variant
  · rw [if_pos hv, hv]
  · rw [if_neg hv]
    split
    · rw [variant_startNew]
    · rw [variant_setSurf]

lemma onSmartResize_noop (w h : ℝ) (sf pf : Bool) (st : MediaState)
    (hv : chooseVariant w h = st.variant) :
    onSmartResize w h sf pf st = st := by
  simp only [onSmartResize]
  rw [if_pos hv]

lemma orZero_eq (x : ℚ) : orZero x = x := by
  unfold orZero
  split <;> simp_all

/-- The seek applied by a ready-path transition: when the variant swaps and
the incoming surface already has `readyState >= 1`, its position afterwards
is exactly `targetTime` of the captured outgoing position and the incoming
duration (successful seek). -/
lemma onSmartResize_seek (w h : ℝ) (pf : Bool) (st : MediaState)
    (hswap : chooseVariant w h ≠ st.variant)
    (hready : 1 ≤ (getSurf st (chooseVariant w h)).readyState) :
    (getSurf (onSmartResize w h false pf st) (chooseVariant w h)).currentTime
      = targetTime (orZero (getSurf st st.variant).currentTime)
          (getSurf st (chooseVariant w h)).duration := by
  simp only [onSmartResize]
  cases hc : chooseVariant w h <;> cases hv : st.variant <;>
    rw [hc] at hready hswap <;> rw [hv] at hswap <;>
    first
      | exact absurd rfl hswap
      | (simp [getSurf] at hready
         cases pf <;>
           simp [getSurf, setSurf, startNew, setOpacity, seekOp, playOp, playSafely,
             hready])

/-- C5: the viewport-change handler is idempotent — a second call with the
same dimensions recomputes the same variant, finds it unchanged and is a
strict no-op on the whole controller state (surfaces, opacities, positions,
play state, scheduled pauses, listeners, load calls). -/
theorem onSmartResize_idempotent (w h : ℝ) (sf1 pf1 sf2 pf2 : Bool) (st : MediaState) :
    onSmartResize w h sf2 pf2 (onSmartResize w h sf1 pf1 st)
      = onSmartResize w h sf1 pf1 st :=
  onSmartResize_noop w h sf2 pf2 _ (variant_onSmartResize w h sf1 pf1 st).symm

/-- C6: `startNew` swallows failures — a throwing seek is caught and the
incoming position is unchanged (and a successful one lands on
`targetTime`); a failing `play` never propagates (the transition function
is total and merely leaves the paused flag); and the remaining effects
(crossfade opacities, scheduled pause of the outgoing surface) complete in
every case. -/
theorem startNew_error_swallowing (seekFails playFails : Bool) (t : ℚ)
    (prevV curV : Variant) (st : MediaState) (hpc : prevV ≠ curV) :
    (seekFails = true →
      (getSurf (startNew seekFails playFails t prevV curV st) curV).currentTime
        = (getSurf st curV).currentTime)
    ∧ (seekFails = false →
      (getSurf (startNew seekFails playFails t prevV curV st) curV).currentTime
        = targetTime t (getSurf st curV).duration)
    ∧ (getSurf (startNew seekFails playFails t prevV curV st) prevV).opacity = 0
    ∧ (getSurf (startNew seekFails playFails t prevV curV st) curV).opacity = 1
    ∧ (startNew seekFails playFails t prevV curV st).scheduledPauses
        = st.scheduledPauses ++ [prevV]
    ∧ (playFails = false →
      (getSurf (startNew seekFails playFails t prevV curV st) curV).paused = false)
    ∧ (playFails = true →
      (getSurf (startNew seekFails playFails t prevV curV st) curV).paused
        = (getSurf st curV).paused) := by
  cases prevV <;> cases curV <;>
    first
      | exact absurd rfl hpc
      | (cases seekFails <;> cases playFails <;>
          simp [startNew, setOpacity, setSurf, getSurf, seekOp, playOp, playSafely])

/-- C6 witness: a transition whose seek and play both fail still
crossfades and schedules the pause, leaving the position unchanged. -/
theorem startNew_error_swallowing_witness :
    (getSurf (startNew true true 4 .portrait .landscape stC6) .landscape).currentTime
      = (getSurf stC6 .landscape).currentTime
    ∧ (getSurf (startNew true true 4 .portrait .landscape stC6) .portrait).opacity = 0
    ∧ (getSurf (startNew true true 4 .portrait .landscape stC6) .landscape).opacity = 1
    ∧ (startNew true true 4 .portrait .landscape stC6).scheduledPauses
        = stC6.scheduledPauses ++ [.portrait] := by
  have H := startNew_error_swallowing true true 4 .portrait .landscape stC6 (by decide)
  exact ⟨H.1 rfl, H.2.2.1, H.2.2.2.1, H.2.2.2.2.1⟩

/-- C1 counterexample: with an incoming duration of `1/100 s` (smaller
than the `0.05 s` guard) and outgoing position `t = 0 ≥ duration − ε`, the
position after the transition is `0`, not `duration − ε = −1/25` as the
claim's clamping clause states. -/
theorem clamp_below_eps_counterexample :
    (1 / 100 - 1 / 20 : ℚ) ≤ (getSurf stC1x stC1x.variant).currentTime
    ∧ (getSurf stC1x Variant.landscape).duration = some (1 / 100)
    ∧ (getSurf (onSmartResize 16 9 false false stC1x) .landscape).currentTime
        ≠ 1 / 100 - 1 / 20 := by
  have hsw : chooseVariant 16 9 ≠ stC1x.variant := by
    rw [chooseVariant_16_9]; simp [stC1x]
  have hrd : 1 ≤ (getSurf stC1x (chooseVariant 16 9)).readyState := by
    rw [chooseVariant_16_9]; simp [stC1x, getSurf]
  have H := onSmartResize_seek 16 9 false stC1x hsw hrd
  rw [chooseVariant_16_9] at H
  refine ⟨by norm_num [stC1x, getSurf], by simp [stC1x, getSurf], ?_⟩
  rw [H]
  have h1 : orZero (getSurf stC1x stC1x.variant).currentTime = 0 := by
    simp [stC1x, getSurf, orZero]
  have h2 : (getSurf stC1x Variant.landscape).duration = some (1 / 100) := by
    simp [stC1x, getSurf]
  rw [h1, h2]
  simp only [targetTime]
  rw [max_eq_right (by norm_num : (1 / 100 - 1 / 20 : ℚ) ≤ 0), min_self]
  norm_num

/-- C1 (amended): when the handler swaps variants and the incoming surface
is ready, the captured outgoing position `t` is seeked to
`min(t, max(duration − 0.05, 0))` when the duration is known and to `t`
unclamped when it is unknown; in particular for `t < duration − ε` the
incoming position equals `t`, and for `0 ≤ t` with `t ≥ duration − ε` it is
clamped to `max(duration − ε, 0)` (which is `duration − ε` whenever
`duration ≥ ε`). -/
theorem onSmartResize_position_preservation (w h : ℝ) (pf : Bool) (st : MediaState)
    (hswap : chooseVariant w h ≠ st.variant)
    (hready : 1 ≤ (getSurf st (chooseVariant w h)).readyState) :
    (∀ d : ℚ, (getSurf st (chooseVariant w h)).duration = some d →
      (getSurf (onSmartResize w h false pf st) (chooseVariant w h)).currentTime
        = min (getSurf st st.variant).currentTime (max (d - 1/20) 0))
    ∧ ((getSurf st (chooseVariant w h)).duration = none →
      (getSurf (onSmartResize w h false pf st) (chooseVariant w h)).currentTime
        = (getSurf st st.variant).currentTime)
    ∧ (∀ d : ℚ, (getSurf st (chooseVariant w h)).duration = some d →
      ((getSurf st st.variant).currentTime < d - 1/20 →
        (getSurf (onSmartResize w h false pf st) (chooseVariant w h)).currentTime
          = (getSurf st st.variant).currentTime)
      ∧ (0 ≤ (getSurf st st.variant).currentTime →
          d - 1/20 ≤ (getSurf st st.variant).currentTime →
        (getSurf (onSmartResize w h false pf st) (chooseVariant w h)).currentTime
          = max (d - 1/20) 0)) := by
  have key := onSmartResize_seek w h pf st hswap hready
  rw [orZero_eq] at key
  refine ⟨?_, ?_, ?_⟩
  · intro d hd
    rw [key, hd]
    simp [targetTime]
  · intro hd
    rw [key, hd]
    simp [targetTime]
  · intro d hd
    constructor
    · intro hlt
      rw [key, hd]
      simp only [targetTime]
      exact min_eq_left (le_trans hlt.le (le_max_left _ _))
    · intro h0 hge
      rw [key, hd]
      simp only [targetTime]
      exact min_eq_right (max_le hge h0)

/-- C1 witness: outgoing position `3`, incoming duration `10`: the
position is preserved across the swap. -/
theorem onSmartResize_position_preservation_witness :
    (getSurf (onSmartResize 16 9 false false stC1w) .landscape).currentTime = 3 := by
  have hsw : chooseVariant 16 9 ≠ stC1w.variant := by
    rw [chooseVariant_16_9]; simp [stC1w]
  have hrd : 1 ≤ (getSurf stC1w (chooseVariant 16 9)).readyState := by
    rw [chooseVariant_16_9]; simp [stC1w, getSurf]
  have hd : (getSurf stC1w (chooseVariant 16 9)).duration = some 10 := by
    rw [chooseVariant_16_9]; simp [stC1w, getSurf]
  have H := ((onSmartResize_position_preservation 16 9 false stC1w hsw hrd).2.2 10 hd).1
    (by norm_num [stC1w, getSurf])
  rw [chooseVariant_16_9] at H
  rw [H]
  simp [stC1w, getSurf]

/-! Helper lemmas about the centered-section loop. -/

lemma centerLoop_contains (mid : ℚ) :
    ∀ (l : List Rect) (k : ℕ) (hk : k < l.length) (i idx : ℕ),
      (∀ (j : ℕ) (hj : j < l.length), j < k →
        (l.get ⟨j, hj⟩).top ≤ mid ∧ ¬ containsMid mid (l.get ⟨j, hj⟩)) →
      containsMid mid (l.get ⟨k, hk⟩) →
      centerLoop mid i idx l = i + k := by
  intro l
  induction l with
  | nil => intro k hk; exact absurd hk (by simp)
  | cons r rest ih =>
    intro k hk i idx hpre hc
    cases k with
    | zero =>
      have hc0 : r.top ≤ mid ∧ mid ≤ r.bottom := hc
      unfold centerLoop
      rw [if_pos hc0]
      omega
    | succ k2 =>
      have h0 := hpre 0 (by simp) (Nat.succ_pos k2)
      have h0t : r.top ≤ mid := h0.1
      have h0c : ¬ (r.top ≤ mid ∧ mid ≤ r.bottom) := h0.2
      unfold centerLoop
      rw [if_neg h0c, if_neg (not_lt.mpr h0t)]
      have hk2 : k2 < rest.length := by simpa using hk
      have hpre2 : ∀ (j : ℕ) (hj : j < rest.length), j < k2 →
          (rest.get ⟨j, hj⟩).top ≤ mid ∧ ¬ containsMid mid (rest.get ⟨j, hj⟩) := by
        intro j hj hjk
        have := hpre (j + 1) (by simpa using Nat.succ_lt_succ hj) (Nat.succ_lt_succ hjk)
        simpa [List.get_cons_succ] using this
      have hc2 : containsMid mid (rest.get ⟨k2, hk2⟩) := by
        simpa [List.get_cons_succ] using hc
      rw [ih k2 hk2 (i + 1) (if rest.isEmpty then i else idx) hpre2 hc2]
      omega

lemma centerLoop_break (mid : ℚ) :
    ∀ (l : List Rect) (k : ℕ) (hk : k < l.length) (i idx : ℕ),
      (∀ (j : ℕ) (hj : j < l.length), j < k →
        (l.get ⟨j, hj⟩).top ≤ mid ∧ ¬ containsMid mid (l.get ⟨j, hj⟩)) →
      mid < (l.get ⟨k, hk⟩).top →
      centerLoop mid i idx l = i + k - 1 := by
  intro l
  induction l with
  | nil => intro k hk; exact absurd hk (by simp)
  | cons r rest ih =>
    intro k hk i idx hpre htop
    cases k with
    | zero =>
      have htop0 : mid < r.top := htop
      unfold centerLoop
      rw [if_neg (fun hcon => absurd hcon.1 (not_le.mpr htop0)), if_pos htop0,
        Nat.zero_max]
      omega
    | succ k2 =>
      have h0 := hpre 0 (by simp) (Nat.succ_pos k2)
      have h0t : r.top ≤ mid := h0.1
      have h0c : ¬ (r.top ≤ mid ∧ mid ≤ r.bottom) := h0.2
      unfold centerLoop
      rw [if_neg h0c, if_neg (not_lt.mpr h0t)]
      have hk2 : k2 < rest.length := by simpa using hk
      have hpre2 : ∀ (j : ℕ) (hj : j < rest.length), j < k2 →
          (rest.get ⟨j, hj⟩).top ≤ mid ∧ ¬ containsMid mid (rest.get ⟨j, hj⟩) := by
        intro j hj hjk
        have := hpre (j + 1) (by simpa using Nat.succ_lt_succ hj) (Nat.succ_lt_succ hjk)
        simpa [List.get_cons_succ] using this
      have htop2 : mid < (rest.get ⟨k2, hk2⟩).top := by
        simpa [List.get_cons_succ] using htop
      rw [ih k2 hk2 (i + 1) (if rest.isEmpty then i else idx) hpre2 htop2]
      omega

lemma centerLoop_allLow (mid : ℚ) :
    ∀ (l : List Rect) (i idx : ℕ),
      l ≠ [] →
      (∀ (j : ℕ) (hj : j < l.length),
        (l.get ⟨j, hj⟩).top ≤ mid ∧ ¬ containsMid mid (l.get ⟨j, hj⟩)) →
      centerLoop mid i idx l = i + l.length - 1 := by
  intro l
  induction l with
  | nil => intro i idx h; exact absurd rfl h
  | cons r rest ih =>
    intro i idx _ hall
    have h0 := hall 0 (by simp)
    have h0t : r.top ≤ mid := h0.1
    have h0c : ¬ (r.top ≤ mid ∧ mid ≤ r.bottom) := h0.2
    unfold centerLoop
    rw [if_neg h0c, if_neg (not_lt.mpr h0t)]
    by_cases hre : rest = []
    · subst hre
      simp [centerLoop]
    · have hall2 : ∀ (j : ℕ) (hj : j < rest.length),
          (rest.get ⟨j, hj⟩).top ≤ mid ∧ ¬ containsMid mid (rest.get ⟨j, hj⟩) := by
        intro j hj
        have := hall (j + 1) (by simpa using Nat.succ_lt_succ hj)
        simpa [List.get_cons_succ] using this
      rw [ih (i + 1) (if rest.isEmpty then i else idx) hre hall2]
      simp only [List.length_cons]
      omega

/-- C8: on an ordered list of section rectangles (tops monotone, each
rectangle's top at or above its bottom edge in screen coordinates),
`centerSectionIndex` returns the first index whose vertical extent contains
the viewport midpoint `vh / 2`; when no rectangle contains it, it returns
the index just before the first one whose top exceeds the midpoint
(truncated subtraction clamps at index `0`), and the last index when the
midpoint lies below every rectangle. -/
theorem centerSectionIndex_spec (vh : ℚ) (rects : List Rect)
    (hsort : ∀ (j k : ℕ) (hj : j < rects.length) (hk : k < rects.length), j ≤ k →
      (rects.get ⟨j, hj⟩).top ≤ (rects.get ⟨k, hk⟩).top)
    (hval : ∀ r ∈ rects, r.top ≤ r.bottom) :
    (∀ (i : ℕ) (hi : i < rects.length),
      containsMid (vh / 2) (rects.get ⟨i, hi⟩) →
      (∀ (j : ℕ) (hj : j < rects.length), j < i →
        ¬ containsMid (vh / 2) (rects.get ⟨j, hj⟩)) →
      centerSectionIndex vh rects = i)
    ∧ ((∀ (j : ℕ) (hj : j < rects.length), ¬ containsMid (vh / 2) (rects.get ⟨j, hj⟩)) →
      (∀ (i : ℕ) (hi : i < rects.length),
        vh / 2 < (rects.get ⟨i, hi⟩).top →
        (∀ (j : ℕ) (hj : j < rects.length), j < i → (rects.get ⟨j, hj⟩).top ≤ vh / 2) →
        centerSectionIndex vh rects = i - 1))
    ∧ ((∀ (i : ℕ) (hi : i < rects.length), (rects.get ⟨i, hi⟩).bottom < vh / 2) →
      rects ≠ [] →
      centerSectionIndex vh rects = rects.length - 1) := by
  refine ⟨?_, ?_, ?_⟩
  · intro i hi hc hfirst
    unfold centerSectionIndex
    rw [centerLoop_contains (vh / 2) rects i hi 0 0
      (fun j hj hji => ⟨(hsort j i hj hi hji.le).trans hc.1, hfirst j hj hji⟩) hc]
    omega
  · intro hnone i hi htop hbefore
    unfold centerSectionIndex
    rw [centerLoop_break (vh / 2) rects i hi 0 0
      (fun j hj hji => ⟨hbefore j hj hji, hnone j hj⟩) htop]
    omega
  · intro hpast hne
    unfold centerSectionIndex
    rw [centerLoop_allLow (vh / 2) rects 0 0 hne
      (fun j hj => ⟨(hval _ (List.get_mem rects j hj)).trans (hpast j hj).le,
        fun hcon => absurd hcon.2 (not_le.mpr (hpast j hj))⟩)]
    omega

/-- C8 witness: with viewport height `800` and three stacked sections, the
section containing the midpoint `400` is found at index `0`. -/
theorem centerSectionIndex_spec_witness :
    centerSectionIndex 800 [⟨0, 800⟩, ⟨800, 2000⟩, ⟨2000, 2600⟩] = 0 := by
  refine (centerSectionIndex_spec 800 [⟨0, 800⟩, ⟨800, 2000⟩, ⟨2000, 2600⟩]
      ?_ ?_).1 0 (by norm_num) ?_ ?_
  · intro j k hj hk hjk
    simp only [List.length_cons, List.length_nil] at hj hk
    interval_cases j <;> interval_cases k <;> norm_num [List.get]
  · intro r hr
    simp only [List.mem_cons, List.not_mem_nil, or_false] at hr
    rcases hr with h | h | h <;> subst h <;> norm_num
  · norm_num [containsMid, List.get]
  · intro j hj hji
    omega

/-! Helper lemmas about the scroll-snap state machine. -/

lemma onScroll_animating (env : Env) (y : ℚ) (st : SnapState) :
    (onScroll env y st).animating = st.animating := by
  simp [onScroll, scheduleSnap, apply_ite SnapState.animating]

lemma onScroll_committed (env : Env) (y : ℚ) (st : SnapState) :
    (onScroll env y st).committed = st.committed := by
  simp [onScroll, scheduleSnap, apply_ite SnapState.committed]

lemma onScroll_of_animating (env : Env) (y : ℚ) (st : SnapState)
    (ha : st.animating = true) (ht : st.snapTimer = none) :
    onScroll env y st = { st with direction := newDirOf y st, lastY := y } := by
  have h1 : (if newDirOf y st ≠ st.direction ∧ st.snapTimer ≠ none then
      { st with snapTimer := none } else st) = st :=
    if_neg (fun hcon => hcon.2 ht)
  simp only [onScroll, h1]
  rw [if_pos
    (show ({ st with direction := newDirOf y st, lastY := y } : SnapState).animating = true
      from ha)]

/-- Every `onScroll` result's timer slot is either cleared, untouched (when
no direction flip cancelled it), or a fresh schedule whose kind matches the
new direction. -/
lemma onScroll_snapTimer (env : Env) (y : ℚ) (st : SnapState) :
    (onScroll env y st).snapTimer = none
    ∨ (¬ (newDirOf y st ≠ st.direction ∧ st.snapTimer ≠ none)
        ∧ (onScroll env y st).snapTimer = st.snapTimer)
    ∨ ∃ q, (onScroll env y st).snapTimer = some q ∧ pendingDir q = newDirOf y st := by
  simp only [onScroll]
  split
  · split
    · exact Or.inl rfl
    · split
      · next hdown =>
        split
        · exact Or.inr (Or.inr ⟨_, rfl, by simp [scheduleSnap, pendingDir, hdown.1]⟩)
        · exact Or.inl rfl
      · split
        · next hup =>
          split
          · exact Or.inr (Or.inr ⟨_, rfl, by simp [scheduleSnap, pendingDir, hup.1]⟩)
          · exact Or.inl rfl
        · exact Or.inl rfl
  · next hcond =>
    split
    · exact Or.inr (Or.inl ⟨hcond, rfl⟩)
    · split
      · next hdown =>
        split
        · exact Or.inr (Or.inr ⟨_, rfl, by simp [scheduleSnap, pendingDir, hdown.1]⟩)
        · exact Or.inr (Or.inl ⟨hcond, rfl⟩)
      · split
        · next hup =>
          split
          · exact Or.inr (Or.inr ⟨_, rfl, by simp [scheduleSnap, pendingDir, hup.1]⟩)
          · exact Or.inr (Or.inl ⟨hcond, rfl⟩)
        · exact Or.inr (Or.inl ⟨hcond, rfl⟩)

/-- C2: the scroll-snap mutual exclusion invariant. Assuming the inductive
invariant that an animating controller holds no pending timer, every signal
(scroll, resize re-evaluation, debounced timer, settle) preserves it, and
while `animating` is true no signal commits a new snap target and the timer
slot stays empty — no snap is scheduled or executed. -/
theorem snap_animating_exclusion (env : Env) (e : SnapEvent) (st : SnapState)
    (hinv : st.animating = true → st.snapTimer = none) :
    ((snapStep env e st).animating = true → (snapStep env e st).snapTimer = none)
    ∧ (st.animating = true →
        (snapStep env e st).committed = st.committed
        ∧ (snapStep env e st).snapTimer = none) := by
  cases e with
  | scroll y =>
    constructor
    · intro ha2
      simp only [snapStep] at ha2 ⊢
      rw [onScroll_animating] at ha2
      rw [onScroll_of_animating env y st ha2 (hinv ha2)]
      exact hinv ha2
    · intro ha
      simp only [snapStep]
      rw [onScroll_of_animating env y st ha (hinv ha)]
      exact ⟨rfl, hinv ha⟩
  | resize y =>
    by_cases ha : st.animating = true
    · simp only [snapStep]
      rw [if_pos ha]
      exact ⟨fun _ => hinv ha, fun _ => ⟨rfl, hinv ha⟩⟩
    · simp only [snapStep]
      rw [if_neg ha]
      constructor
      · intro ha2
        rw [onScroll_animating] at ha2
        exact absurd ha2 ha
      · intro h
        exact absurd h ha
  | timer =>
    cases htm : st.snapTimer with
    | none =>
      have hred : snapStep env .timer st = st := by simp [snapStep, fireTimer, htm]
      rw [hred]
      exact ⟨fun _ => htm, fun _ => ⟨rfl, htm⟩⟩
    | some p =>
      have hno : st.animating = false := by
        by_cases ha : st.animating = true
        · rw [hinv ha] at htm
          exact absurd htm (by simp)
        · simpa using ha
      constructor
      · intro _
        cases p <;>
          simp [snapStep, fireTimer, htm, snapToNextTop, snapToPrevBottom, scrollToY]
      · intro ha
        rw [ha] at hno
        exact absurd hno (by simp)
  | settle =>
    constructor
    · intro h
      simp [snapStep, settleDone] at h
    · intro ha
      exact ⟨rfl, hinv ha⟩

/-- C2 witness: a scroll signal arriving during an active snap animation
commits nothing and schedules nothing. -/
theorem snap_animating_exclusion_witness :
    (snapStep envSnap (SnapEvent.scroll 50) stC2).committed = stC2.committed
    ∧ (snapStep envSnap (SnapEvent.scroll 50) stC2).snapTimer = none :=
  (snap_animating_exclusion envSnap (SnapEvent.scroll 50) stC2 (fun _ => rfl)).2 rfl

/-- C7: a direction flip while a snap is pending clears the pending timer:
the originally scheduled snap is dropped (any newly scheduled one matches
the flipped direction, hence differs), and the flip itself commits no
scroll command. -/
theorem onScroll_direction_flip_cancels (env : Env) (y : ℚ) (st : SnapState)
    (p : PendingSnap)
    (hp : st.snapTimer = some p)
    (hmatch : pendingDir p = st.direction)
    (hflip : newDirOf y st ≠ st.direction) :
    (onScroll env y st).snapTimer ≠ some p
    ∧ (onScroll env y st).committed = st.committed := by
  refine ⟨?_, onScroll_committed env y st⟩
  rcases onScroll_snapTimer env y st with h | ⟨hc, _⟩ | ⟨q, hq, hdq⟩
  · rw [h]
    simp
  · exact absurd ⟨hflip, by rw [hp]; simp⟩ hc
  · rw [hq]
    intro hcon
    have hqp : q = p := by simpa using hcon
    subst hqp
    rw [hmatch] at hdq
    exact hflip hdq.symm

/-- C7 witness: scrolling up (`y = 50 < lastY = 100`) while a down-snap is
pending cancels that snap. -/
theorem onScroll_direction_flip_cancels_witness :
    (onScroll envSnap 50 stC7).snapTimer ≠ some (.toNextTop 1)
    ∧ (onScroll envSnap 50 stC7).committed = stC7.committed :=
  onScroll_direction_flip_cancels envSnap 50 stC7 (.toNextTop 1) rfl rfl
    (by norm_num [newDirOf, stC7]; decide)

/-- C10: every committed snap target is the rounded, non-negatively clamped
offset (an integer `≥ 0`), and an upward snap (`snapToPrevBottom`) never
targets above the previous section's own top offset — a section shorter
than the viewport is clamped from bottom-alignment to top-alignment. -/
theorem snap_target_nonneg_clamped :
    (∀ (y : ℚ) (st : SnapState),
      (scrollToY y st).committed = st.committed ++ [round (max 0 y)]
      ∧ (scrollToY y st).targetY = some (round (max 0 y))
      ∧ 0 ≤ round (max 0 y))
    ∧ (∀ (vh : ℚ) (prev : PageSection) (st : SnapState),
      ∃ t : ℤ, (snapToPrevBottom vh prev st).committed = st.committed ++ [t]
        ∧ 0 ≤ t ∧ prev.offsetTop ≤ t
        ∧ ((prev.offsetHeight : ℚ) < vh → t = round (max 0 (prev.offsetTop : ℚ)))) := by
  have hnn : ∀ y : ℚ, 0 ≤ round (max 0 y) := by
    intro y
    rw [round_eq]
    refine Int.le_floor.mpr ?_
    push_cast
    have := le_max_left (0 : ℚ) y
    linarith
  refine ⟨fun y st => ⟨rfl, rfl, hnn y⟩, ?_⟩
  intro vh prev st
  refine ⟨round (max 0 (max (prev.offsetTop : ℚ)
      ((prev.offsetTop : ℚ) + (prev.offsetHeight : ℚ) - vh))), rfl, hnn _, ?_, ?_⟩
  · have h1 : (prev.offsetTop : ℚ) ≤ max 0 (max (prev.offsetTop : ℚ)
        ((prev.offsetTop : ℚ) + (prev.offsetHeight : ℚ) - vh)) :=
      le_trans (le_max_left _ _) (le_max_right _ _)
    have h2 : round ((prev.offsetTop : ℚ)) ≤ round (max 0 (max (prev.offsetTop : ℚ)
        ((prev.offsetTop : ℚ) + (prev.offsetHeight : ℚ) - vh))) := by
      rw [round_eq, round_eq]
      exact Int.floor_le_floor (by linarith)
    rw [round_intCast] at h2
    exact h2
  · intro hs
    rw [max_eq_left (by linarith : (prev.offsetTop : ℚ) + (prev.offsetHeight : ℚ) - vh
        ≤ (prev.offsetTop : ℚ))]

/-- C10 witness: bottom-aligning a 600 px section in an 800 px viewport is
clamped to its top offset `0`, committing the non-negative target `0`. -/
theorem snap_target_nonneg_clamped_witness :
    (snapToPrevBottom 800 ⟨0, 600⟩ stC10).committed = [(0 : ℤ)] := by
  obtain ⟨t, hc, hnn, htop, hshort⟩ := snap_target_nonneg_clamped.2 800 ⟨0, 600⟩ stC10
  have ht : t = 0 := by
    rw [hshort (by norm_num)]
    simp
  rw [hc, ht]
  simp [stC10]

end Portfolio
